import Mathlib

/-!
Verification of the extraction-and-scoring core of the gemini-company-intel
repository (src/discovery.py, src/deep_analysis.py, src/revenue.py).

The Python code is shallowly embedded: each relevant Python function becomes
an executable Lean definition translated statement-by-statement from the
source.  Python ints are modelled as `Int`, Python floats (revenue amounts,
variance percentages) as `Rat`, Python strings as `String`, Python lists as
`List`, and a Python dict key that may be absent as an `Option` field.
-/

namespace CompanyIntel

/-! ## Confidence Scorer (src/revenue.py, `calculate_confidence`)

An element of `data["revenue_estimates"]`.  `calculate_confidence` reads only
the keys `credibility_score` (via `e.get("credibility_score", 0)`) and
`amount_millions` (via `e.get("amount_millions", 0)`); the remaining keys of
the source record (display string, source name, url, tier, year, notes) are
never read by the scorer and are omitted from the embedding. -/
structure Estimate where
  amount_millions : Rat
  credibility_score : Int
deriving DecidableEq, Repr

/-- The ordered level table of src/revenue.py line 236:
`levels = ["INSUFFICIENT", "LOW", "MODERATE", "MODERATE-HIGH", "HIGH"]`. -/
def levels : List String :=
  ["INSUFFICIENT", "LOW", "MODERATE", "MODERATE-HIGH", "HIGH"]

/-- The stale-data demotion step of src/revenue.py lines 236-238:
`idx = levels.index(confidence); confidence = levels[max(0, idx - 1)]`.
In the source `confidence` is always a member of `levels`, so
`levels.index` never raises; the `getD` default is never reached there. -/
def demoteOnce (confidence : String) : String :=
  let idx := levels.indexOf confidence
  levels.getD (max 0 (idx - 1)) confidence

/-- `calculate_confidence` (src/revenue.py lines 196-240), translated
statement by statement.  `estimates` is `data.get("revenue_estimates", [])`
and `red_flags` is `data.get("research_quality", {}).get("red_flags", [])`;
the embedding takes the two collections the function actually consumes.
Python `max(gen)` over a non-empty generator is folded from the first
element; the list comprehension keeping `amount > 0` becomes a filter. -/
def calculate_confidence (estimates : List Estimate) (red_flags : List String) :
    String :=
  match estimates with
  | [] => "INSUFFICIENT"
  | e :: rest =>
    let best_credibility : Int :=
      rest.foldl (fun a x => max a x.credibility_score) e.credibility_score
    let source_count : Nat := (e :: rest).length
    let amounts : List Rat :=
      ((e :: rest).map (fun x => x.amount_millions)).filter (fun a => 0 < a)
    let variance_pct : Rat :=
      if amounts.length ≥ 2 then
        (amounts.foldl max (amounts.headD 0) - amounts.foldl min (amounts.headD 0))
          / (amounts.foldl (· + ·) 0 / (amounts.length : Rat)) * 100
      else 0
    let has_high_variance : Bool :=
      decide (variance_pct > 300) || red_flags.contains "high_variance"
    let has_stale_data : Bool := red_flags.contains "stale_data"
    let confidence : String :=
      if best_credibility ≥ 80 ∧ source_count ≥ 2 ∧ variance_pct ≤ 20 then
        "HIGH"
      else if best_credibility ≥ 70 ∧ source_count ≥ 2 ∧ variance_pct ≤ 40 then
        "MODERATE-HIGH"
      else if best_credibility ≥ 80 ∧ source_count = 1 then
        "MODERATE-HIGH"
      else if best_credibility ≥ 50 ∧ source_count ≥ 2 then
        "MODERATE"
      else if best_credibility ≥ 60 ∧ source_count = 1 then
        "MODERATE"
      else
        "LOW"
    let confidence :=
      if has_high_variance ∧ (confidence = "HIGH" ∨ confidence = "MODERATE-HIGH")
      then "MODERATE" else confidence
    if has_stale_data ∧ confidence ≠ "INSUFFICIENT" then demoteOnce confidence
    else confidence

/-- Observer: the maximum credibility of a non-empty estimate list
(`max(e.get("credibility_score", 0) for e in estimates)`); `0` for the empty
list, which the scorer never reaches. -/
def bestCredibility (estimates : List Estimate) : Int :=
  match estimates with
  | [] => 0
  | e :: rest => rest.foldl (fun a x => max a x.credibility_score) e.credibility_score

/-- Observer: the variance percentage of src/revenue.py lines 209-213,
computed over the strictly positive amounts, `0` when fewer than two. -/
def variancePct (estimates : List Estimate) : Rat :=
  let amounts : List Rat :=
    (estimates.map (fun x => x.amount_millions)).filter (fun a => 0 < a)
  if amounts.length ≥ 2 then
    (amounts.foldl max (amounts.headD 0) - amounts.foldl min (amounts.headD 0))
      / (amounts.foldl (· + ·) 0 / (amounts.length : Rat)) * 100
  else 0

/-- Observer: the base confidence level of src/revenue.py lines 220-231
(the five-tier rule chain), before any demotion; `INSUFFICIENT` for the
empty list as returned at line 203. -/
def baseLevel (estimates : List Estimate) : String :=
  match estimates with
  | [] => "INSUFFICIENT"
  | _ :: _ =>
    let best := bestCredibility estimates
    let count := estimates.length
    let vp := variancePct estimates
    if best ≥ 80 ∧ count ≥ 2 ∧ vp ≤ 20 then "HIGH"
    else if best ≥ 70 ∧ count ≥ 2 ∧ vp ≤ 40 then "MODERATE-HIGH"
    else if best ≥ 80 ∧ count = 1 then "MODERATE-HIGH"
    else if best ≥ 50 ∧ count ≥ 2 then "MODERATE"
    else if best ≥ 60 ∧ count = 1 then "MODERATE"
    else "LOW"

/-- Observer: the level after the high-variance demotion pass of
src/revenue.py lines 233-234 and before the stale-data pass. -/
def postVarianceLevel (estimates : List Estimate) (red_flags : List String) :
    String :=
  let c := baseLevel estimates
  if (decide (variancePct estimates > 300) || red_flags.contains "high_variance")
      ∧ (c = "HIGH" ∨ c = "MODERATE-HIGH")
  then "MODERATE" else c

/-- Transcription of spec §4.4 step 3: `positive_amounts = [amount for e in
estimates if amount > 0]`; if at least two, `variance_pct = (max − min) /
mean(positive_amounts) × 100`, else `0`.  Stated from the spec's words, to be
compared with the code-derived `variancePct`. -/
def specVariancePct (estimates : List Estimate) : Rat :=
  let positive_amounts : List Rat :=
    (estimates.map (fun x => x.amount_millions)).filter (fun a => 0 < a)
  if positive_amounts.length ≥ 2 then
    (positive_amounts.foldl max (positive_amounts.headD 0)
        - positive_amounts.foldl min (positive_amounts.headD 0))
      / (positive_amounts.foldl (· + ·) 0 / (positive_amounts.length : Rat)) * 100
  else 0

/-- Transcription of spec §4.4 steps 1, 2 and 4: the ordered base-level rule
table, first matching rule wins, with `best = max credibility` and
`count = |estimates|`; `INSUFFICIENT` for the empty list.  Stated from the
spec's words, to be compared with the code-derived behaviour. -/
def specBaseLevel (estimates : List Estimate) : String :=
  match estimates with
  | [] => "INSUFFICIENT"
  | e :: rest =>
    let best : Int :=
      rest.foldl (fun a x => max a x.credibility_score) e.credibility_score
    let count : Nat := (e :: rest).length
    let variance_pct : Rat := specVariancePct (e :: rest)
    if best ≥ 80 ∧ count ≥ 2 ∧ variance_pct ≤ 20 then "HIGH"
    else if best ≥ 70 ∧ count ≥ 2 ∧ variance_pct ≤ 40 then "MODERATE-HIGH"
    else if best ≥ 80 ∧ count = 1 then "MODERATE-HIGH"
    else if best ≥ 50 ∧ count ≥ 2 then "MODERATE"
    else if best ≥ 60 ∧ count = 1 then "MODERATE"
    else "LOW"

/-! ## Extractor (`extract_json` in all three pipelines)

`json.loads` belongs to the Python standard library, outside this
repository; the cascade treats it as a black box, so it is modelled as a
parameter `loads`: `loads text = some v` when `text` parses as a structured
document of value `v`, `none` when `json.loads` raises `JSONDecodeError`. -/

/-- Python `\s` on the ASCII range: space, tab, newline, carriage return,
vertical tab, form feed (the regexes below are only ever applied by the
code to model output text; the rare non-ASCII Unicode spaces that Python
`\s` additionally matches are not modelled). -/
def isPySpace (c : Char) : Bool :=
  c = ' ' || c = '\t' || c = '\n' || c = '\r' || c = '\x0b' || c = '\x0c'

/-- Three backtick characters, the fence delimiter of the regex
at src/revenue.py line 143 / src/deep_analysis.py line 123 /
src/discovery.py line 185. -/
def ticks : List Char := ['\x60', '\x60', '\x60']

/-- The lazy group tail of the fence regex: having consumed the opening
brace, scan left to right (shortest match first) for a closing brace that
is followed, after optional whitespace, by a closing triple-backtick fence;
return the whole braced group.  `acc` holds the group interior read so far,
reversed. -/
def fenceClose (acc : List Char) : List Char → Option (List Char)
  | [] => none
  | c :: rest =>
    if c = '\x7d' ∧ (rest.dropWhile isPySpace).take 3 = ticks then
      some (('\x7b' :: acc.reverse) ++ ['\x7d'])
    else fenceClose (c :: acc) rest

/-- One anchored attempt of the fence regex
at the head of `l`: a triple backtick, an optional
literal `json` tag, optional whitespace, then a lazily matched braced
group followed by optional whitespace and a closing triple backtick.
When the text continues with `json` the optional group consumes it; the
regex's fallback of not consuming it can never succeed afterwards, since
the following `\s*` and brace cannot match the letter `j`. -/
def fencedAt (l : List Char) : Option (List Char) :=
  if l.take 3 = ticks then
    let r1 := l.drop 3
    let r2 := if r1.take 4 = ['j', 's', 'o', 'n'] then r1.drop 4 else r1
    match r2.dropWhile isPySpace with
    | c :: body => if c = '\x7b' then fenceClose [] body else none
    | [] => none
  else none

/-- `re.search` of the fenced-block pattern: try every start position left
to right, first anchored success wins. -/
def fencedSearch : List Char → Option (List Char)
  | [] => none
  | c :: rest =>
    match fencedAt (c :: rest) with
    | some g => some g
    | none => fencedSearch rest

/-- The markdown code-block strategy's captured group, when the pattern
matches anywhere in `text`. -/
def fencedBlock (text : String) : Option String :=
  (fencedSearch text.data).map fun l => String.mk l

/-- The longest suffix-trimmed prefix of `l` that ends in a closing brace:
everything after the last closing brace of `l` is dropped; `[]` when `l`
has no closing brace. -/
def upToLastClose (l : List Char) : List Char :=
  (l.reverse.dropWhile fun c => ¬ c = '\x7d').reverse

/-- `re.search` of the greedy raw-JSON pattern (an opening brace, any
characters, a closing brace): the match starts at the first opening brace
that still has a closing brace after it and extends greedily to the last
closing brace of the text. -/
def rawSearch : List Char → Option (List Char)
  | [] => none
  | c :: rest =>
    if c = '\x7b' ∧ '\x7d' ∈ rest then some (c :: upToLastClose rest)
    else rawSearch rest

/-- The raw-JSON strategy's matched span, when the pattern matches. -/
def rawSpan (text : String) : Option String :=
  (rawSearch text.data).map fun l => String.mk l

/-- The failure record of src/deep_analysis.py lines 138-143: `parse_error`
flag, the first 2000 characters of the text, and empty `executives_found`
and `strategic_insights` default lists (entries are opaque here). -/
structure DeepFailure where
  parse_error : Bool
  raw_text : String
  executives_found : List String
  strategic_insights : List String
deriving DecidableEq, Repr

/-- The `ownership` default of src/revenue.py line 162. -/
structure Ownership where
  type : String
deriving DecidableEq, Repr

/-- The `research_quality` default of src/revenue.py line 163. -/
structure ResearchQuality where
  sources_found : Int
  red_flags : List String
deriving DecidableEq, Repr

/-- The failure record of src/revenue.py lines 158-164. -/
structure RevenueFailure where
  parse_error : Bool
  raw_text : String
  revenue_estimates : List Estimate
  ownership : Ownership
  research_quality : ResearchQuality
deriving DecidableEq, Repr

/-- The failure record of src/discovery.py line 200: an error message and
the first 500 characters of the text, with no default collection fields. -/
structure DiscoveryFailure where
  error : String
  raw_response : String
deriving DecidableEq, Repr

/-- Outcome of src/deep_analysis.py `extract_json`. -/
inductive DeepExtract (J : Type) where
  | parsed (value : J)
  | failed (f : DeepFailure)
deriving DecidableEq, Repr

/-- Outcome of src/revenue.py `extract_json`. -/
inductive RevenueExtract (J : Type) where
  | parsed (value : J)
  | failed (f : RevenueFailure)
deriving DecidableEq, Repr

/-- Outcome of src/discovery.py `extract_json`. -/
inductive DiscoveryExtract (J : Type) where
  | parsed (value : J)
  | failed (f : DiscoveryFailure)
deriving DecidableEq, Repr

/-- `extract_json` of src/deep_analysis.py lines 114-143: direct parse,
then the fenced-block group, then the raw brace span; on triple failure
the fixed failure record.  A strategy whose regex does not match and one
whose captured text fails to parse fall through identically, as in the
source. -/
def deep_extract_json {J : Type} (loads : String → Option J) (text : String) :
    DeepExtract J :=
  match loads text with
  | some v => .parsed v
  | none =>
    match (fencedBlock text).bind loads with
    | some v => .parsed v
    | none =>
      match (rawSpan text).bind loads with
      | some v => .parsed v
      | none => .failed ⟨true, text.take 2000, [], []⟩

/-- `extract_json` of src/revenue.py lines 134-164: the same cascade as
src/deep_analysis.py, with the revenue pipeline's failure defaults. -/
def revenue_extract_json {J : Type} (loads : String → Option J) (text : String) :
    RevenueExtract J :=
  match loads text with
  | some v => .parsed v
  | none =>
    match (fencedBlock text).bind loads with
    | some v => .parsed v
    | none =>
      match (rawSpan text).bind loads with
      | some v => .parsed v
      | none =>
        .failed ⟨true, text.take 2000, [], ⟨"unknown"⟩, ⟨0, ["json_parse_error"]⟩⟩

/-- `extract_json` of src/discovery.py lines 182-200: unlike the other two
pipelines it has no direct-parse step — it starts at the fenced-block
strategy — and its failure record keeps only the first 500 characters. -/
def discovery_extract_json {J : Type} (loads : String → Option J)
    (text : String) : DiscoveryExtract J :=
  match (fencedBlock text).bind loads with
  | some v => .parsed v
  | none =>
    match (rawSpan text).bind loads with
    | some v => .parsed v
    | none => .failed ⟨"JSON parsing failed", text.take 500⟩

/-! ## Source Router (src/deep_analysis.py, `get_high_relevance_sources`
and the categorisation in `main`) -/

/-- An element of `discovery_data["strategic_statements"]`, carrying the
keys `get_high_relevance_sources` reads (each read with a `.get` default,
modelled as a total field). -/
structure Statement where
  statement : String
  source_name : String
  source_type : String
  source_url : String
  outreach_relevance : Int
deriving DecidableEq, Repr

/-- A routed source candidate as built at src/deep_analysis.py
lines 273-279. -/
structure Source where
  url : String
  type : String
  relevance : Int
  source_name : String
  snippet : String
deriving DecidableEq, Repr

/-- `get_high_relevance_sources` (src/deep_analysis.py lines 261-281):
keep, in input order, every statement whose relevance meets the threshold
and whose url is non-empty (Python string truthiness), projected to a
source record with the statement text truncated to 200 characters. -/
def get_high_relevance_sources (statements : List Statement) (threshold : Int) :
    List Source :=
  statements.filterMap fun stmt =>
    if stmt.outreach_relevance ≥ threshold ∧ stmt.source_url ≠ "" then
      some ⟨stmt.source_url, stmt.source_type, stmt.outreach_relevance,
            stmt.source_name, stmt.statement.take 200⟩
    else none

/-- The secondary source kinds of src/deep_analysis.py line 498. -/
def secondaryTypes : List String := ["news", "press_release", "interview", "article"]

/-- The categorisation step of `main` (src/deep_analysis.py lines 497-523):
partition the surviving sources into YouTube sources and article-like
sources, the latter capped to the first 5 in input order by the
`art_sources[:5]` slice at line 520; any other source type is dropped. -/
def route (statements : List Statement) (threshold : Int) :
    List Source × List Source :=
  let sources := get_high_relevance_sources statements threshold
  let yt_sources := sources.filter fun s => s.type == "youtube"
  let art_sources := sources.filter fun s => secondaryTypes.contains s.type
  (yt_sources, art_sources.take 5)

/-! ## Aggregator (src/deep_analysis.py, `merge_deep_intel`) -/

/-- A per-video result dict as consumed by `merge_deep_intel`: each of the
four category keys may be absent (`none`); entries are opaque here. -/
structure YtResult where
  executives_found : Option (List String)
  strategic_insights : Option (List String)
  outreach_angles : Option (List String)
  pain_points : Option (List String)
deriving DecidableEq, Repr

/-- A per-article result dict as consumed by `merge_deep_intel`: the
`executive_quotes` key may be absent. -/
structure ArtResult where
  executive_quotes : Option (List String)
deriving DecidableEq, Repr

/-- The merged record built by `merge_deep_intel`
(src/deep_analysis.py lines 291-302). -/
structure MergedIntel where
  company_name : String
  domain : String
  processed_at : String
  youtube_intel : List YtResult
  article_intel : List ArtResult
  executives_found : List String
  strategic_insights : List String
  outreach_angles : List String
  key_quotes : List String
  pain_points : List String
deriving DecidableEq, Repr

/-- `merge_deep_intel` (src/deep_analysis.py lines 288-323).  The call
`datetime.now().isoformat()` at line 294 reads the ambient clock; it is
modelled as the explicit argument `now`.  Each `if key in src:` guard
followed by `extend` becomes a flat-map with a `getD []` default, so a
source lacking a key contributes nothing.  Line 321 replaces `pain_points`
by `list(set(...))`; Python's set iteration order is unspecified, so the
embedding materialises it as `dedup` (first occurrences) and only
membership facts about it are meaningful. -/
def merge_deep_intel (company_name domain now : String)
    (youtube_results : List YtResult) (article_results : List ArtResult) :
    MergedIntel :=
  { company_name := company_name
    domain := domain
    processed_at := now
    youtube_intel := youtube_results
    article_intel := article_results
    executives_found :=
      youtube_results.flatMap fun yt => yt.executives_found.getD []
    strategic_insights :=
      youtube_results.flatMap fun yt => yt.strategic_insights.getD []
    outreach_angles :=
      youtube_results.flatMap fun yt => yt.outreach_angles.getD []
    key_quotes :=
      article_results.flatMap fun art => art.executive_quotes.getD []
    pain_points :=
      (youtube_results.flatMap fun yt => yt.pain_points.getD []).dedup }

/-- The failure record of src/deep_analysis.py `extract_json`, viewed as a
YouTube source of `merge_deep_intel`: `executives_found` and
`strategic_insights` are present and empty, the other category keys are
absent. -/
def failedYtSentinel : YtResult := ⟨some [], some [], none, none⟩

/-- The failure record of src/deep_analysis.py `extract_json`, viewed as an
article source of `merge_deep_intel`: it has no `executive_quotes` key. -/
def failedArtSentinel : ArtResult := ⟨none⟩

/-! ## Concrete instances used by counterexamples and witnesses -/

/-- A complete well-formed JSON object whose single string value contains a
fenced empty object (braces written with escape codes). -/
def cexText : String := "\x7b\"a\": \"```\x7b\x7d```\"\x7d"

/-- A parse function agreeing with `json.loads` on the two relevant inputs:
`cexText` is a well-formed document (value `0`) and the fenced interior
group is a different well-formed document (value `1`); everything else is
rejected. -/
def cexLoads : String → Option Nat := fun s =>
  if s = cexText then some 0 else if s = "\x7b\x7d" then some 1 else none

/-- A parse function rejecting every input, as `json.loads` does on text
with no parseable structured content. -/
def noLoads : String → Option Nat := fun _ => none

/-- 501 characters with no brace and no backtick: no strategy of the
cascade can match. -/
def xs501 : String := String.mk (List.replicate 501 'x')

/-- Concrete statements list: one high-relevance video, one high-relevance
news item, one high-relevance unrecognized kind, one news item with an
empty url, one low-relevance news item. -/
def demoStatements : List Statement :=
  [⟨"s1", "n1", "youtube", "http://a", 90⟩,
   ⟨"s2", "n2", "news", "http://b", 85⟩,
   ⟨"s3", "n3", "blog", "http://c", 99⟩,
   ⟨"s4", "n4", "news", "", 95⟩,
   ⟨"s5", "n5", "news", "http://d", 10⟩]

/-- A YouTube result contributing executive `a` and pain point `p`. -/
def ytA : YtResult := ⟨some ["a"], none, none, some ["p"]⟩

/-- A YouTube result contributing executive `b` and pain point `q`. -/
def ytB : YtResult := ⟨some ["b"], none, none, some ["q"]⟩

/-! ## Helper lemmas -/

/-- Structural decomposition of `calculate_confidence` on a non-empty list:
the returned level is the post-variance level, demoted once when
`stale_data` is flagged and the level is not `INSUFFICIENT`. -/
theorem calc_conf_stages (e : Estimate) (rest : List Estimate)
    (flags : List String) :
    calculate_confidence (e :: rest) flags =
      if flags.contains "stale_data"
          ∧ postVarianceLevel (e :: rest) flags ≠ "INSUFFICIENT" then
        demoteOnce (postVarianceLevel (e :: rest) flags)
      else postVarianceLevel (e :: rest) flags := rfl

/-- On a non-empty estimate list the level entering the stale-data pass is
one of the four base-table outputs, never `INSUFFICIENT`. -/
theorem postVariance_ne_insufficient (est : List Estimate) (flags : List String)
    (h : est ≠ []) : postVarianceLevel est flags ≠ "INSUFFICIENT" := by
  cases est with
  | nil => exact absurd rfl h
  | cons e rest =>
    simp only [postVarianceLevel, baseLevel]
    split_ifs <;> decide

/-- The code-derived variance percentage coincides with the spec's. -/
theorem variancePct_eq_spec (est : List Estimate) :
    variancePct est = specVariancePct est := rfl

/-- The code-derived base level coincides with the spec's rule table. -/
theorem baseLevel_eq_spec (est : List Estimate) :
    baseLevel est = specBaseLevel est := by
  cases est with
  | nil => rfl
  | cons e rest => rfl

/-- When the variance demotion rule fires on a base level of `HIGH` or
`MODERATE-HIGH`, the post-variance level is `MODERATE`. -/
theorem postVariance_moderate (est : List Estimate) (flags : List String)
    (hv : variancePct est > 300 ∨ "high_variance" ∈ flags)
    (hb : baseLevel est = "HIGH" ∨ baseLevel est = "MODERATE-HIGH") :
    postVarianceLevel est flags = "MODERATE" := by
  simp only [postVarianceLevel]
  rw [if_pos]
  refine ⟨?_, hb⟩
  rcases hv with h | h
  · simp [h]
  · simp [h]

/-- Every source returned by `get_high_relevance_sources` passed the
threshold-and-url filter. -/
theorem mem_high_relevance (statements : List Statement) (threshold : Int)
    (s : Source) (hs : s ∈ get_high_relevance_sources statements threshold) :
    threshold ≤ s.relevance ∧ s.url ≠ "" := by
  unfold get_high_relevance_sources at hs
  rw [List.mem_filterMap] at hs
  obtain ⟨stmt, _, he⟩ := hs
  split_ifs at he with h
  cases he
  exact ⟨h.1, h.2⟩

/-! ## Claim theorems -/

/-- C1 counterexample: for the single low-credibility estimate with
`stale_data` flagged, the level before the stale demotion is `LOW`, yet
the returned level is `INSUFFICIENT`, not `LOW`: the decrement is not
floored at `LOW`. -/
theorem stale_demotion_low_floor_cex :
    postVarianceLevel [⟨0, 10⟩] ["stale_data"] = "LOW" ∧
    calculate_confidence [⟨0, 10⟩] ["stale_data"] = "INSUFFICIENT" ∧
    calculate_confidence [⟨0, 10⟩] ["stale_data"] ≠ "LOW" := by decide

/-- C1 (amended): when `stale_data` is flagged and the estimate list is
non-empty, the returned level is exactly one step below the post-variance
level along the ordered level table, floored at index 0 (`INSUFFICIENT`);
in particular a post-variance level of `LOW` yields `INSUFFICIENT`. -/
theorem stale_demotion_one_step (est : List Estimate) (flags : List String)
    (hne : est ≠ []) (hst : "stale_data" ∈ flags) :
    calculate_confidence est flags = demoteOnce (postVarianceLevel est flags) ∧
    (postVarianceLevel est flags = "LOW" →
      calculate_confidence est flags = "INSUFFICIENT") := by
  cases est with
  | nil => exact absurd rfl hne
  | cons e rest =>
    have hni := postVariance_ne_insufficient (e :: rest) flags (by simp)
    have hc : flags.contains "stale_data" = true := by simp [hst]
    rw [calc_conf_stages, if_pos ⟨hc, hni⟩]
    exact ⟨rfl, fun hl => by rw [hl]; decide⟩

/-- C1 witness: the amended statement at the concrete counterexample
input. -/
theorem stale_demotion_one_step_witness :
    calculate_confidence [⟨0, 10⟩] ["stale_data"]
        = demoteOnce (postVarianceLevel [⟨0, 10⟩] ["stale_data"]) ∧
    (postVarianceLevel [⟨0, 10⟩] ["stale_data"] = "LOW" →
      calculate_confidence [⟨0, 10⟩] ["stale_data"] = "INSUFFICIENT") :=
  stale_demotion_one_step [⟨0, 10⟩] ["stale_data"]
    (List.cons_ne_nil _ _) (List.mem_singleton.mpr rfl)

/-- C2 counterexample: two high-credibility agreeing estimates flagged with
both `high_variance` and `stale_data`: the base level is `HIGH`, the
variance rule forces `MODERATE`, and the stale decrement is additionally
applied, returning `LOW` rather than the claimed `MODERATE`. -/
theorem demotion_rules_not_exclusive_cex :
    baseLevel [⟨0, 90⟩, ⟨0, 85⟩] = "HIGH" ∧
    calculate_confidence [⟨0, 90⟩, ⟨0, 85⟩] ["high_variance", "stale_data"]
        = "LOW" ∧
    calculate_confidence [⟨0, 90⟩, ⟨0, 85⟩] ["high_variance", "stale_data"]
        ≠ "MODERATE" := by decide

/-- C2 (amended): the two demotion rules are not mutually exclusive; when
the variance rule fires on a base level of `HIGH` or `MODERATE-HIGH`, the
returned level is `MODERATE` only when `stale_data` is not flagged. -/
theorem variance_moderate_without_stale (est : List Estimate)
    (flags : List String) (hne : est ≠ [])
    (hv : variancePct est > 300 ∨ "high_variance" ∈ flags)
    (hb : baseLevel est = "HIGH" ∨ baseLevel est = "MODERATE-HIGH")
    (hns : "stale_data" ∉ flags) :
    calculate_confidence est flags = "MODERATE" := by
  cases est with
  | nil => exact absurd rfl hne
  | cons e rest =>
    have hpv := postVariance_moderate (e :: rest) flags hv hb
    have hcf : flags.contains "stale_data" = false := by simp [hns]
    rw [calc_conf_stages, hpv, if_neg]
    intro hcond
    rw [hcf] at hcond
    exact Bool.false_ne_true hcond.1

/-- C2 witness: the amended statement with only `high_variance` flagged. -/
theorem variance_moderate_without_stale_witness :
    calculate_confidence [⟨0, 90⟩, ⟨0, 85⟩] ["high_variance"] = "MODERATE" :=
  variance_moderate_without_stale [⟨0, 90⟩, ⟨0, 85⟩] ["high_variance"]
    (List.cons_ne_nil _ _) (Or.inr (List.mem_singleton.mpr rfl))
    (Or.inl (by decide)) (by decide)

/-- C10: on a base level of `HIGH` or `MODERATE-HIGH` with the variance
rule firing and `stale_data` flagged, the two demotions compose
sequentially and the returned level is `LOW`. -/
theorem variance_then_stale_gives_low (est : List Estimate)
    (flags : List String) (hne : est ≠ [])
    (hv : variancePct est > 300 ∨ "high_variance" ∈ flags)
    (hb : baseLevel est = "HIGH" ∨ baseLevel est = "MODERATE-HIGH")
    (hst : "stale_data" ∈ flags) :
    calculate_confidence est flags = "LOW" := by
  cases est with
  | nil => exact absurd rfl hne
  | cons e rest =>
    have hpv := postVariance_moderate (e :: rest) flags hv hb
    have hc : flags.contains "stale_data" = true := by simp [hst]
    rw [calc_conf_stages, hpv, if_pos ⟨hc, by decide⟩]
    decide

/-- C10 witness: the concrete double-demotion input. -/
theorem variance_then_stale_gives_low_witness :
    calculate_confidence [⟨0, 90⟩, ⟨0, 85⟩] ["high_variance", "stale_data"]
        = "LOW" :=
  variance_then_stale_gives_low [⟨0, 90⟩, ⟨0, 85⟩]
    ["high_variance", "stale_data"] (List.cons_ne_nil _ _)
    (Or.inr (by decide)) (Or.inl (by decide)) (by decide)

/-- C5: the scorer returns `INSUFFICIENT` on the empty list, and on a
non-empty list whose variance percentage does not itself trigger the
variance demotion and with no red flags, it returns exactly the spec's
ordered base rule table (first matching rule wins, `best`, `count` and
`variance_pct` as the spec defines them). -/
theorem base_level_rule_table (est : List Estimate) (flags : List String)
    (hne : est ≠ []) (hvar : specVariancePct est ≤ 300) :
    calculate_confidence [] flags = "INSUFFICIENT" ∧
    calculate_confidence est [] = specBaseLevel est := by
  refine ⟨rfl, ?_⟩
  cases est with
  | nil => exact absurd rfl hne
  | cons e rest =>
    have hv : ¬ variancePct (e :: rest) > 300 := by
      rw [variancePct_eq_spec]
      exact not_lt.mpr hvar
    rw [calc_conf_stages]
    have hpv : postVarianceLevel (e :: rest) [] = baseLevel (e :: rest) := by
      simp [postVarianceLevel, hv]
    rw [hpv, if_neg, baseLevel_eq_spec]
    intro hcond
    exact Bool.false_ne_true hcond.1

/-- C5 witness: two agreeing high-credibility estimates score `HIGH` by the
first rule of the table. -/
theorem base_level_rule_table_witness :
    calculate_confidence [] ["all_aggregators"] = "INSUFFICIENT" ∧
    calculate_confidence [⟨0, 90⟩, ⟨0, 85⟩] []
        = specBaseLevel [⟨0, 90⟩, ⟨0, 85⟩] :=
  base_level_rule_table [⟨0, 90⟩, ⟨0, 85⟩] ["all_aggregators"]
    (List.cons_ne_nil _ _) (by decide)

/-- C3 counterexample: `cexText` is a complete well-formed document (the
parse function accepts it, value `0`), yet the discovery pipeline's
`extract_json` returns the value of the fenced sub-object (`1`) instead,
because its cascade has no direct-parse step. -/
theorem discovery_skips_direct_parse_cex :
    cexLoads cexText = some 0 ∧
    discovery_extract_json cexLoads cexText = .parsed 1 := by decide

/-- C3 (amended): the revenue and deep-analysis cascades do try direct
parsing first: on any text the parse function accepts, both return exactly
the directly parsed value, and no earlier strategy can intervene; the
discovery pipeline's `extract_json` lacks the direct-parse strategy. -/
theorem direct_parse_first (J : Type) (loads : String → Option J)
    (text : String) (v : J) (h : loads text = some v) :
    deep_extract_json loads text = .parsed v ∧
    revenue_extract_json loads text = .parsed v := by
  refine ⟨?_, ?_⟩
  · unfold deep_extract_json
    rw [h]
  · unfold revenue_extract_json
    rw [h]

/-- C3 witness: the two direct-parsing pipelines on the counterexample
text return the directly parsed value. -/
theorem direct_parse_first_witness :
    deep_extract_json cexLoads cexText = .parsed 0 ∧
    revenue_extract_json cexLoads cexText = .parsed 0 :=
  direct_parse_first Nat cexLoads cexText 0 (by decide)

/-- C4 counterexample: on a 501-character unparseable input the discovery
pipeline's failure record keeps the first 500 characters, not the first
2000 claimed (and carries no default collection fields at all). -/
theorem discovery_failure_excerpt_cex :
    discovery_extract_json noLoads xs501
        = .failed ⟨"JSON parsing failed", xs501.take 500⟩ ∧
    xs501.take 500 ≠ xs501.take 2000 := by
  constructor
  · unfold discovery_extract_json
    have h1 : (fencedBlock xs501).bind noLoads = none := by
      cases fencedBlock xs501 <;> rfl
    have h2 : (rawSpan xs501).bind noLoads = none := by
      cases rawSpan xs501 <;> rfl
    rw [h1, h2]
  · intro h
    have hdata := congrArg String.data h
    simp only [String.data_take] at hdata
    have hlen := congrArg List.length hdata
    rw [show xs501.data = List.replicate 501 'x' from rfl,
      List.take_replicate, List.take_replicate,
      List.length_replicate, List.length_replicate] at hlen
    omega

/-- C4 (amended): on text with no parseable structured content the revenue
and deep-analysis pipelines return their fixed failure records with the
first 2000 characters and their declared empty defaults, while the
discovery pipeline returns only an error message with the first 500
characters; every excerpt is within its truncation bound. -/
theorem failure_defaults (J : Type) (loads : String → Option J)
    (text : String) (h1 : loads text = none)
    (h2 : (fencedBlock text).bind loads = none)
    (h3 : (rawSpan text).bind loads = none) :
    deep_extract_json loads text = .failed ⟨true, text.take 2000, [], []⟩ ∧
    revenue_extract_json loads text
        = .failed ⟨true, text.take 2000, [], ⟨"unknown"⟩,
            ⟨0, ["json_parse_error"]⟩⟩ ∧
    discovery_extract_json loads text
        = .failed ⟨"JSON parsing failed", text.take 500⟩ ∧
    (text.take 2000).length ≤ 2000 ∧ (text.take 500).length ≤ 500 := by
  refine ⟨?_, ?_, ?_, ?_, ?_⟩
  · unfold deep_extract_json
    rw [h1, h2, h3]
  · unfold revenue_extract_json
    rw [h1, h2, h3]
  · unfold discovery_extract_json
    rw [h2, h3]
  · rw [String.take_eq]
    exact List.length_take_le _ _
  · rw [String.take_eq]
    exact List.length_take_le _ _

/-- C4 witness: the three failure records on a short unparseable text. -/
theorem failure_defaults_witness :
    deep_extract_json noLoads "hello"
        = .failed ⟨true, "hello".take 2000, [], []⟩ ∧
    revenue_extract_json noLoads "hello"
        = .failed ⟨true, "hello".take 2000, [], ⟨"unknown"⟩,
            ⟨0, ["json_parse_error"]⟩⟩ ∧
    discovery_extract_json noLoads "hello"
        = .failed ⟨"JSON parsing failed", "hello".take 500⟩ ∧
    ("hello".take 2000).length ≤ 2000 ∧ ("hello".take 500).length ≤ 500 :=
  failure_defaults Nat noLoads "hello" rfl
    (by cases fencedBlock "hello" <;> rfl)
    (by cases rawSpan "hello" <;> rfl)

/-- C6: every routed source meets the threshold and has a non-empty url;
primary sources are exactly the surviving YouTube sources (uncapped);
secondary sources are of the recognized article-like kinds and are the
first at most 5 such survivors in input order; unrecognized kinds appear in
neither list. -/
theorem route_properties (statements : List Statement) (threshold : Int) :
    (∀ s ∈ (route statements threshold).1,
        threshold ≤ s.relevance ∧ s.url ≠ "" ∧ s.type = "youtube") ∧
    (∀ s ∈ (route statements threshold).2,
        threshold ≤ s.relevance ∧ s.url ≠ "" ∧ s.type ∈ secondaryTypes) ∧
    (route statements threshold).2.length ≤ 5 ∧
    (∃ rest, ((get_high_relevance_sources statements threshold).filter
          fun s => secondaryTypes.contains s.type)
        = (route statements threshold).2 ++ rest) ∧
    (∀ s ∈ get_high_relevance_sources statements threshold,
        s.type = "youtube" → s ∈ (route statements threshold).1) := by
  refine ⟨?_, ?_, ?_, ?_, ?_⟩
  · intro s hs
    simp only [route, List.mem_filter] at hs
    obtain ⟨hsrc, hty⟩ := hs
    have hkeep := mem_high_relevance statements threshold s hsrc
    exact ⟨hkeep.1, hkeep.2, by simpa using hty⟩
  · intro s hs
    simp only [route] at hs
    have hs' := List.mem_of_mem_take hs
    rw [List.mem_filter] at hs'
    obtain ⟨hsrc, hty⟩ := hs'
    have hkeep := mem_high_relevance statements threshold s hsrc
    exact ⟨hkeep.1, hkeep.2, by simpa using hty⟩
  · simp only [route]
    exact List.length_take_le _ _
  · exact ⟨_, (List.take_append_drop 5 _).symm⟩
  · intro s hs hty
    simp only [route, List.mem_filter]
    exact ⟨hs, by simp [hty]⟩

/-- C6 witness: the routing properties at a concrete statements list. -/
theorem route_properties_witness :
    (route demoStatements 80).2.length ≤ 5 :=
  (route_properties demoStatements 80).2.2.1

/-- C7: the deduplicated `pain_points` category is invariant, as a set,
under permuting the YouTube sources, while the order-preserving concat
categories are not: a concrete transposition changes `executives_found` as
a sequence. -/
theorem pain_points_perm_invariant :
    (∀ (n d t : String) (yt₁ yt₂ : List YtResult) (art : List ArtResult),
        yt₁.Perm yt₂ →
        ∀ x, x ∈ (merge_deep_intel n d t yt₁ art).pain_points ↔
             x ∈ (merge_deep_intel n d t yt₂ art).pain_points) ∧
    ((merge_deep_intel "c" "d" "t" [ytA, ytB] []).executives_found
        ≠ (merge_deep_intel "c" "d" "t" [ytB, ytA] []).executives_found ∧
      List.Perm [ytA, ytB] [ytB, ytA]) := by
  refine ⟨?_, ?_, List.Perm.swap ytB ytA []⟩
  · intro n d t yt₁ yt₂ art h x
    simp only [merge_deep_intel, List.mem_dedup, List.mem_flatMap]
    constructor
    · rintro ⟨y, hy, hx⟩
      exact ⟨y, h.mem_iff.mp hy, hx⟩
    · rintro ⟨y, hy, hx⟩
      exact ⟨y, h.mem_iff.mpr hy, hx⟩
  · decide

/-- C7 witness: set-invariance instantiated at the concrete transposition
whose concat category differs. -/
theorem pain_points_perm_invariant_witness :
    "p" ∈ (merge_deep_intel "c" "d" "t" [ytA, ytB] []).pain_points ↔
    "p" ∈ (merge_deep_intel "c" "d" "t" [ytB, ytA] []).pain_points :=
  pain_points_perm_invariant.1 "c" "d" "t" [ytA, ytB] [ytB, ytA] []
    (List.Perm.swap ytB ytA []) "p"

/-- C8: a source lacking a category key contributes nothing to that
category and never aborts the merge, and when every source is the failure
sentinel the merged record has every category empty. -/
theorem merge_tolerates_failures :
    (∀ (n d t : String) (yts : List YtResult) (arts : List ArtResult),
        (∀ y ∈ yts, y = failedYtSentinel) →
        (∀ a ∈ arts, a = failedArtSentinel) →
        (merge_deep_intel n d t yts arts).executives_found = [] ∧
        (merge_deep_intel n d t yts arts).strategic_insights = [] ∧
        (merge_deep_intel n d t yts arts).outreach_angles = [] ∧
        (merge_deep_intel n d t yts arts).key_quotes = [] ∧
        (merge_deep_intel n d t yts arts).pain_points = []) ∧
    (∀ (n d t : String) (yt₁ yt₂ : List YtResult) (y : YtResult)
        (arts : List ArtResult), y.executives_found = none →
        (merge_deep_intel n d t (yt₁ ++ y :: yt₂) arts).executives_found
          = (merge_deep_intel n d t (yt₁ ++ yt₂) arts).executives_found) := by
  constructor
  · intro n d t yts arts hy ha
    refine ⟨?_, ?_, ?_, ?_, ?_⟩
    · exact List.flatMap_eq_nil_iff.mpr fun y hm => by rw [hy y hm]; rfl
    · exact List.flatMap_eq_nil_iff.mpr fun y hm => by rw [hy y hm]; rfl
    · exact List.flatMap_eq_nil_iff.mpr fun y hm => by rw [hy y hm]; rfl
    · exact List.flatMap_eq_nil_iff.mpr fun a hm => by rw [ha a hm]; rfl
    · have : (yts.flatMap fun yt => yt.pain_points.getD []) = [] :=
        List.flatMap_eq_nil_iff.mpr fun y hm => by rw [hy y hm]; rfl
      simp only [merge_deep_intel, this, List.dedup_nil]
  · intro n d t yt₁ yt₂ y arts hnone
    simp only [merge_deep_intel, List.flatMap_append, List.flatMap_cons,
      hnone, Option.getD_none, List.nil_append]

/-- C8 witness: merging one failed YouTube source with one failed article
source yields empty categories throughout. -/
theorem merge_tolerates_failures_witness :
    (merge_deep_intel "c" "d" "t" [failedYtSentinel]
        [failedArtSentinel]).executives_found = [] ∧
    (merge_deep_intel "c" "d" "t" [failedYtSentinel]
        [failedArtSentinel]).strategic_insights = [] ∧
    (merge_deep_intel "c" "d" "t" [failedYtSentinel]
        [failedArtSentinel]).outreach_angles = [] ∧
    (merge_deep_intel "c" "d" "t" [failedYtSentinel]
        [failedArtSentinel]).key_quotes = [] ∧
    (merge_deep_intel "c" "d" "t" [failedYtSentinel]
        [failedArtSentinel]).pain_points = [] :=
  merge_tolerates_failures.1 "c" "d" "t" [failedYtSentinel] [failedArtSentinel]
    (fun _ hy => List.mem_singleton.mp hy)
    (fun _ ha => List.mem_singleton.mp ha)

/-- C9 counterexample: two merges with identical four arguments but
different ambient clock readings produce different outputs, so the
Aggregator's output is not fully determined by its four arguments. -/
theorem merge_reads_ambient_clock_cex :
    merge_deep_intel "c" "d" "t1" [] [] ≠ merge_deep_intel "c" "d" "t2" [] [] := by
  decide

/-- C9 (amended): the Extractor, Router and Confidence Scorer are pure
functions of their explicit inputs; the Aggregator's merge additionally
reads the current clock, but only the `processed_at` metadata field depends
on it — every other field of the merged record is fully determined by the
four arguments. -/
theorem merge_time_only_processed_at (n d t₁ t₂ : String)
    (yts : List YtResult) (arts : List ArtResult) :
    merge_deep_intel n d t₁ yts arts
      = { merge_deep_intel n d t₂ yts arts with processed_at := t₁ } := rfl

end CompanyIntel
